import Mathlib

/-
  Verification of the DeepMTP data-configuration and validation-setting engine
  against its specification (spec.md).

  The repository ships the engine's test suite (DeepMTP/tests/test_data_utils.py)
  and callers, but the implementing module DeepMTP/utils/data_utils.py is not part
  of the available sources.  Every definition below that embeds one of its
  functions is therefore modelled from the specification (sections 3, 4 and 7 of
  spec.md), kept consistent with the behaviour the in-repository tests demand.
  IDs are modelled as naturals (the integer ID case of the spec) and interaction
  values as rationals, which represent the test suite's float-encoded values
  exactly.
-/

namespace DeepMTP

/-- Validation setting (spec section 3): one of the four sharing regimes
A, B, C, D for instance/target identity across the train/val/test splits. -/
inductive Setting where
  | A
  | B
  | C
  | D
deriving DecidableEq, Repr

/-- Error taxonomy of the engine (spec section 7). -/
inductive DataError where
  | FormatError
  | InconsistentTypeError
  | AmbiguousNoveltyError
  | RedundantFeatureSourceError
  | MissingFeatureSourceError
  | IncompleteFeatureCoverageError
  | InsufficientDataError
deriving DecidableEq, Repr

/-- One interaction record: a triple (instance_id, target_id, value)
(spec section 3, canonical triple-table form). -/
structure Triple where
  instance_id : Nat
  target_id : Nat
  value : Rat
deriving DecidableEq, Repr

/-- A canonical interaction record set: the triple table together with the
format tag it was normalised from (spec section 3). -/
structure InteractionSet where
  data : List Triple
  original_format : String
deriving DecidableEq, Repr

/-- One row of a feature table: an entity ID and its feature vector
(spec section 3, feature table with id and features columns). -/
structure FeatureRow where
  id : Nat
  features : List Rat
deriving DecidableEq, Repr

/-- A feature table is a list of (id, features) rows. -/
abbrev FeatureTable := List FeatureRow

/-- The id column of a feature table. -/
def tableIds (t : FeatureTable) : List Nat := t.map (fun r => r.id)

/-- One split of a canonical dataset: interaction data plus optional
instance- and target-feature tables (spec section 3, canonical dataset). -/
structure SplitData where
  y : Option InteractionSet
  X_instance : Option FeatureTable
  X_target : Option FeatureTable
deriving DecidableEq, Repr

/-- A canonical dataset: the three splits train/val/test (spec section 3). -/
structure Dataset where
  train : SplitData
  val : SplitData
  test : SplitData
deriving DecidableEq, Repr

/-- Modelled from the spec: DeepMTP/utils/data_utils.py (function
get_estimated_validation_setting) is not under src/.  Spec section 4.4: a pure
function of the two novelty booleans returning the setting of the table in
section 3. -/
def get_estimated_validation_setting (instance_novel target_novel : Bool) : Setting :=
  match instance_novel, target_novel with
  | false, false => Setting.A
  | true,  false => Setting.B
  | false, true  => Setting.C
  | true,  true  => Setting.D

/-- The instance IDs referenced by an interaction record set. -/
def instanceIds (y : InteractionSet) : List Nat := y.data.map (fun t => t.instance_id)

/-- The target IDs referenced by an interaction record set. -/
def targetIds (y : InteractionSet) : List Nat := y.data.map (fun t => t.target_id)

/-- Boolean disjointness of two ID lists: no element of the first occurs in
the second. -/
def disjointIds (a b : List Nat) : Bool := a.all (fun i => !(b.contains i))

/-- Boolean coverage of an ID list by another: every element of the first
occurs in the second. -/
def coveredBy (a b : List Nat) : Bool := a.all (fun i => b.contains i)

/-- Modelled from the spec: DeepMTP/utils/data_utils.py (function
check_novel_instances) is not under src/.  Spec section 4.3: true iff the test
instance IDs are disjoint from the train instance IDs, false iff every test
instance ID also appears in train, AmbiguousNoveltyError on partial overlap. -/
def check_novel_instances (train test : InteractionSet) : Except DataError Bool :=
  if disjointIds (instanceIds test) (instanceIds train) then Except.ok true
  else if coveredBy (instanceIds test) (instanceIds train) then Except.ok false
  else Except.error DataError.AmbiguousNoveltyError

/-- Modelled from the spec: DeepMTP/utils/data_utils.py (function
check_novel_targets) is not under src/.  Spec section 4.3: mirror of
check_novel_instances over target IDs. -/
def check_novel_targets (train test : InteractionSet) : Except DataError Bool :=
  if disjointIds (targetIds test) (targetIds train) then Except.ok true
  else if coveredBy (targetIds test) (targetIds train) then Except.ok false
  else Except.error DataError.AmbiguousNoveltyError

/-- True iff every interaction value of the list is 0 or 1 (spec section 4.2,
with float-encoded 0.0/1.0 represented exactly by the rationals 0 and 1). -/
def allBinary (y : List Triple) : Bool := y.all (fun t => t.value == 0 || t.value == 1)

/-- Modelled from the spec: DeepMTP/utils/data_utils.py (function
check_variable_type) is not under src/.  Spec section 4.2: binary if every
value is in 0/1, else real-valued. -/
def check_variable_type (y : List Triple) : String :=
  if allBinary y then "binary" else "real-valued"

/-- Modelled from the spec: DeepMTP/utils/data_utils.py (function
check_target_variable_type) is not under src/.  Spec section 4.2: applies
check_variable_type to the train split and fails with InconsistentTypeError
if the val or test split disagrees. -/
def check_target_variable_type (train val test : List Triple) :
    Except DataError String :=
  if check_variable_type val == check_variable_type train
      && check_variable_type test == check_variable_type train then
    Except.ok (check_variable_type train)
  else
    Except.error DataError.InconsistentTypeError

/-- True iff every element of the list equals its head (all formats equal). -/
def allEqualStr : List String → Bool
  | [] => true
  | x :: xs => xs.all (fun s => s == x)

/-- The original_format tags of the splits whose interaction data is present. -/
def presentFormats (d : Dataset) : List String :=
  ([d.train, d.val, d.test]).filterMap (fun s => s.y.map (fun yy => yy.original_format))

/-- Modelled from the spec: DeepMTP/utils/data_utils.py (function
check_interaction_files_format) is not under src/.  Spec section 3 invariant:
within one canonical dataset all splits must share the same original_format;
a violation is fatal (FormatError). -/
def check_interaction_files_format (d : Dataset) : Except DataError Unit :=
  if allEqualStr (presentFormats d) then Except.ok () else Except.error DataError.FormatError

/-- The view of one split that the cross-input consistency checker inspects
for one entity type: the referenced entity IDs of the interaction data (absent
when y is absent) and the id column of the feature table (absent when the
table is absent). -/
structure SplitView where
  yIds : Option (List Nat)
  xIds : Option (List Nat)
deriving DecidableEq, Repr

/-- Instance-side view of a split. -/
def splitViewInstances (s : SplitData) : SplitView :=
  { yIds := s.y.map instanceIds, xIds := s.X_instance.map tableIds }

/-- Target-side view of a split. -/
def splitViewTargets (s : SplitData) : SplitView :=
  { yIds := s.y.map targetIds, xIds := s.X_target.map tableIds }

/-- Feature-table indicator of a split view: 1 if the split carries a
feature table, else 0. -/
def featCount (w : SplitView) : Nat := if w.xIds.isSome then 1 else 0

/-- The ID list held by an optional column, empty when absent. -/
def optIds : Option (List Nat) → List Nat
  | none => []
  | some l => l

/-- A split view carries a feature table although its interaction data is
absent. -/
def xWithoutY (w : SplitView) : Bool := w.xIds.isSome && w.yIds.isNone

/-- A split view carries interaction data but no feature table. -/
def yWithoutX (w : SplitView) : Bool := w.yIds.isSome && w.xIds.isNone

/-- A split view has complete feature coverage: when both the interaction
data and the feature table are present, every referenced ID appears in the
table (spec section 4.5, final rule). -/
def viewCovered (w : SplitView) : Bool :=
  match w.yIds, w.xIds with
  | some ys, some xs => coveredBy ys xs
  | _, _ => true

/-- A single supplied feature table covers the union of the referenced IDs of
every split (spec section 4.5, shared-identity rule; when exactly one table is
supplied the concatenated table column is that table's id column). -/
def unionCovered (t v u : SplitView) : Bool :=
  coveredBy (optIds t.yIds ++ optIds v.yIds ++ optIds u.yIds)
    (optIds t.xIds ++ optIds v.xIds ++ optIds u.xIds)

/-- Modelled from the spec: DeepMTP/utils/data_utils.py (functions
cross_input_consistency_check_instances / _targets) is not under src/.  The
common core of the cross-input consistency check, spec section 4.5, for one
entity type over the three split views, kept consistent with the repository's
tests (test_data_utils.py).  With shared entity identity the feature-table
count k must be 0 or 1 (k of 2 or 3 is RedundantFeatureSourceError, tests
lines 259-275 and 456-472) and a single table must cover the union of the
referenced IDs of all splits (tests lines 277-293 and 474-490).  With
per-split identity, k of 0 passes; a single table (k of 1) is treated as one
shared feature source and must cover the union of the referenced IDs (tests
lines 351-367 and 566-582 accept it); otherwise the structural rules are
checked first (a table on a split without interaction data is redundant,
tests lines 297-313 and 494-510; a data-carrying split without a table while
others have one is MissingFeatureSourceError, tests lines 241-257, 333-349,
420-436 and 530-546) and the per-split coverage rule last (tests lines
205-221, 223-239, 315-331 and 512-528). -/
def cross_check_core (t v u : SplitView) (shared : Bool) : Except DataError Unit :=
  let k := featCount t + featCount v + featCount u
  if shared then
    if 2 ≤ k then Except.error DataError.RedundantFeatureSourceError
    else if k == 1 && !(unionCovered t v u) then
      Except.error DataError.IncompleteFeatureCoverageError
    else Except.ok ()
  else
    if k == 0 then Except.ok ()
    else if k == 1 then
      if unionCovered t v u then Except.ok ()
      else Except.error DataError.IncompleteFeatureCoverageError
    else if xWithoutY t || xWithoutY v || xWithoutY u then
      Except.error DataError.RedundantFeatureSourceError
    else if yWithoutX t || yWithoutX v || yWithoutX u then
      Except.error DataError.MissingFeatureSourceError
    else if viewCovered t && viewCovered v && viewCovered u then Except.ok ()
    else Except.error DataError.IncompleteFeatureCoverageError

/-- Instance identity is shared across splits exactly under settings A and C
(spec section 4.5, second bullet). -/
def instanceSharedSetting : Setting → Bool
  | Setting.A => true
  | Setting.B => false
  | Setting.C => true
  | Setting.D => false

/-- Target identity is shared across splits exactly under settings A and B
(spec section 4.5, last paragraph). -/
def targetSharedSetting : Setting → Bool
  | Setting.A => true
  | Setting.B => true
  | Setting.C => false
  | Setting.D => false

/-- Modelled from the spec: DeepMTP/utils/data_utils.py (function
cross_input_consistency_check_instances) is not under src/.  Spec section 4.5,
instance half. -/
def cross_input_consistency_check_instances (d : Dataset) (s : Setting) :
    Except DataError Unit :=
  cross_check_core (splitViewInstances d.train) (splitViewInstances d.val)
    (splitViewInstances d.test) (instanceSharedSetting s)

/-- Modelled from the spec: DeepMTP/utils/data_utils.py (function
cross_input_consistency_check_targets) is not under src/.  Spec section 4.5,
target half (the mirror with target IDs and setting pairs swapped). -/
def cross_input_consistency_check_targets (d : Dataset) (s : Setting) :
    Except DataError Unit :=
  cross_check_core (splitViewTargets d.train) (splitViewTargets d.val)
    (splitViewTargets d.test) (targetSharedSetting s)

/-- Number of splits of a dataset that carry an instance-feature table. -/
def instanceFeatureCount (d : Dataset) : Nat :=
  featCount (splitViewInstances d.train) + featCount (splitViewInstances d.val)
    + featCount (splitViewInstances d.test)

/-- Number of splits of a dataset that carry a target-feature table. -/
def targetFeatureCount (d : Dataset) : Nat :=
  featCount (splitViewTargets d.train) + featCount (splitViewTargets d.val)
    + featCount (splitViewTargets d.test)

/-- Union (as a concatenated list) of the instance IDs referenced by every
split's interaction data. -/
def instanceUnionIds (d : Dataset) : List Nat :=
  optIds (splitViewInstances d.train).yIds ++ optIds (splitViewInstances d.val).yIds
    ++ optIds (splitViewInstances d.test).yIds

/-- Union (as a concatenated list) of the target IDs referenced by every
split's interaction data. -/
def targetUnionIds (d : Dataset) : List Nat :=
  optIds (splitViewTargets d.train).yIds ++ optIds (splitViewTargets d.val).yIds
    ++ optIds (splitViewTargets d.test).yIds

/-- Concatenation of the id columns of all supplied instance-feature tables
(when exactly one table is supplied this is that table's id column). -/
def instanceTableIds (d : Dataset) : List Nat :=
  optIds (splitViewInstances d.train).xIds ++ optIds (splitViewInstances d.val).xIds
    ++ optIds (splitViewInstances d.test).xIds

/-- Concatenation of the id columns of all supplied target-feature tables. -/
def targetTableIds (d : Dataset) : List Nat :=
  optIds (splitViewTargets d.train).xIds ++ optIds (splitViewTargets d.val).xIds
    ++ optIds (splitViewTargets d.test).xIds

/-- A split carries non-empty interaction data. -/
def splitYNonempty (s : SplitData) : Bool :=
  match s.y with
  | some ys => !ys.data.isEmpty
  | none => false

/-- All three splits carry non-empty interaction data. -/
def allYNonempty (d : Dataset) : Bool :=
  splitYNonempty d.train && splitYNonempty d.val && splitYNonempty d.test

/-- Raw interaction input (spec section 3): either a dense 2-D array indexed
by (instance position, target position), or an explicit table of triples. -/
inductive RawInteractions where
  | dense (rows : List (List Rat))
  | triplets (table : List Triple)
deriving DecidableEq, Repr

/-- Result of interaction-format normalisation (spec section 4.1): the
canonical triple table plus the format tag and the inferred ID types. -/
structure ProcessedInteractions where
  data : List Triple
  original_format : String
  instance_id_type : String
  target_id_type : String
deriving DecidableEq, Repr

/-- Modelled from the spec: DeepMTP/utils/data_utils.py (function
process_interaction_data) is not under src/.  Spec section 4.1: a dense array
yields one triple per cell (row index = instance id, column index = target id,
cell = value) tagged numpy with integer ID types; a triple table passes
through unchanged tagged triplets. -/
def process_interaction_data : RawInteractions → ProcessedInteractions
  | RawInteractions.dense rows =>
      { data := (rows.enum.map (fun p => p.2.enum.map (fun q => Triple.mk p.1 q.1 q.2))).flatten
        original_format := "numpy"
        instance_id_type := "int"
        target_id_type := "int" }
  | RawInteractions.triplets table =>
      { data := table
        original_format := "triplets"
        instance_id_type := "int"
        target_id_type := "int" }

/-- Feature table with the given id column and empty feature vectors. -/
def xTab (l : List Nat) : FeatureTable := l.map (fun i => FeatureRow.mk i [])

/-- Train interactions of the setting-B test scenarios of
test_data_utils.py: instance IDs 0-3 over target IDs 0-1. -/
def yTrainB : InteractionSet :=
  ⟨[⟨0, 0, 0⟩, ⟨0, 1, 1⟩, ⟨1, 0, 0⟩, ⟨1, 1, 1⟩, ⟨2, 0, 0⟩, ⟨2, 1, 1⟩, ⟨3, 0, 0⟩, ⟨3, 1, 1⟩],
    "triplets"⟩

/-- Val interactions of the setting-B test scenarios: instance IDs 4-5. -/
def yValB : InteractionSet :=
  ⟨[⟨4, 0, 0⟩, ⟨4, 1, 1⟩, ⟨5, 0, 0⟩, ⟨5, 1, 1⟩], "triplets"⟩

/-- Test interactions of the setting-B test scenarios: instance IDs 6-8. -/
def yTestB : InteractionSet :=
  ⟨[⟨6, 0, 0⟩, ⟨6, 1, 1⟩, ⟨7, 0, 0⟩, ⟨7, 1, 1⟩, ⟨8, 0, 0⟩, ⟨8, 1, 0⟩], "triplets"⟩

/-- Setting-B scenario of test_data_utils.py lines 351-367: one instance
feature table (train only) whose IDs cover all splits. -/
def dSingleB : Dataset :=
  ⟨⟨some yTrainB, some (xTab [0, 1, 2, 3, 4, 5, 6, 7, 8]), none⟩,
    ⟨some yValB, none, none⟩,
    ⟨some yTestB, none, none⟩⟩

/-- Setting-B scenario of test_data_utils.py lines 333-349: two instance
feature tables for three interaction tables. -/
def dK2B : Dataset :=
  ⟨⟨some yTrainB, some (xTab [0, 1, 2, 3, 4, 5]), none⟩,
    ⟨some yValB, none, none⟩,
    ⟨some yTestB, some (xTab [6, 7, 8]), none⟩⟩

/-- Setting-B scenario of test_data_utils.py lines 223-239: three instance
feature tables but the val table misses instance ID 5. -/
def dK3BadCov : Dataset :=
  ⟨⟨some yTrainB, some (xTab [0, 1, 2, 3]), none⟩,
    ⟨some yValB, some (xTab [4]), none⟩,
    ⟨some yTestB, some (xTab [6, 7, 8]), none⟩⟩

/-- Setting-B scenario of test_data_utils.py lines 297-313: the val split has
no interaction data while all three splits carry an instance feature table. -/
def dYNoneB : Dataset :=
  ⟨⟨some yTrainB, some (xTab [0, 1, 2, 3]), none⟩,
    ⟨none, some (xTab [4, 5]), none⟩,
    ⟨some yTestB, some (xTab [6, 7, 8]), none⟩⟩

/-- Setting-A scenario of test_data_utils.py lines 277-293: a single instance
feature table covering the union of the IDs referenced by all splits. -/
def dA1 : Dataset :=
  ⟨⟨some ⟨[⟨0, 0, 1⟩, ⟨1, 3, 1⟩, ⟨2, 4, 1⟩, ⟨5, 4, 1⟩, ⟨6, 2, 1⟩], "triplets"⟩,
      some (xTab [0, 1, 2, 3, 4, 5, 6]), none⟩,
    ⟨some ⟨[⟨0, 1, 1⟩, ⟨3, 1, 0⟩, ⟨4, 3, 0⟩], "triplets"⟩, none, none⟩,
    ⟨some ⟨[⟨0, 4, 0⟩, ⟨3, 2, 0⟩, ⟨4, 0, 1⟩], "triplets"⟩, none, none⟩⟩

/-- Setting-A scenario of test_data_utils.py lines 259-275: two instance
feature tables supplied although the instance identity is shared. -/
def dA2 : Dataset :=
  ⟨⟨some yTrainB, some (xTab [0, 1, 2, 3]), none⟩,
    ⟨some yValB, none, none⟩,
    ⟨some yTestB, some (xTab [6, 7, 8]), none⟩⟩

/-- The dataset dA1 with no feature table at all. -/
def dA0 : Dataset :=
  ⟨⟨dA1.train.y, none, none⟩, ⟨dA1.val.y, none, none⟩, ⟨dA1.test.y, none, none⟩⟩

/-- Counterexample dataset: two instance feature tables (per-split count 2)
under setting B, the val table missing referenced instance ID 2. -/
def dCovCx : Dataset :=
  ⟨⟨some ⟨[⟨0, 0, 0⟩], "triplets"⟩, some (xTab [0]), none⟩,
    ⟨some ⟨[⟨1, 0, 0⟩, ⟨2, 0, 1⟩], "triplets"⟩, some (xTab [1]), none⟩,
    ⟨some ⟨[⟨3, 0, 0⟩], "triplets"⟩, none, none⟩⟩

/-- Target-side mirror of dSingleB (test_data_utils.py lines 566-582): one
target feature table (train only) whose IDs cover all splits, setting C. -/
def dSingleC : Dataset :=
  ⟨⟨some ⟨[⟨0, 0, 0⟩, ⟨1, 0, 1⟩, ⟨0, 1, 0⟩, ⟨1, 1, 1⟩, ⟨0, 2, 0⟩, ⟨1, 2, 1⟩, ⟨0, 3, 0⟩, ⟨1, 3, 1⟩],
        "triplets"⟩, none, some (xTab [0, 1, 2, 3, 4, 5, 6, 7, 8])⟩,
    ⟨some ⟨[⟨0, 4, 0⟩, ⟨1, 4, 1⟩, ⟨0, 5, 0⟩, ⟨1, 5, 1⟩], "triplets"⟩, none, none⟩,
    ⟨some ⟨[⟨0, 6, 0⟩, ⟨1, 6, 1⟩, ⟨0, 7, 0⟩, ⟨1, 7, 1⟩, ⟨0, 8, 0⟩, ⟨1, 8, 0⟩], "triplets"⟩,
      none, none⟩⟩

/-- Target-side mirror of dK2B (test_data_utils.py lines 530-546): two
target feature tables for three interaction tables, setting C. -/
def dK2C : Dataset :=
  ⟨⟨dSingleC.train.y, none, some (xTab [0, 1, 2, 3, 4, 5])⟩,
    ⟨dSingleC.val.y, none, none⟩,
    ⟨dSingleC.test.y, none, some (xTab [6, 7, 8])⟩⟩

/-- Train interactions with instance and target IDs 0-3 (novelty tests of
test_data_utils.py lines 123-143). -/
def yNovTrain : InteractionSet :=
  ⟨[⟨0, 0, 0⟩, ⟨1, 1, 1⟩, ⟨2, 2, 0⟩, ⟨3, 3, 1⟩], "triplets"⟩

/-- Test interactions with instance and target IDs 4-7, disjoint from
yNovTrain. -/
def yNovTest : InteractionSet :=
  ⟨[⟨4, 4, 0⟩, ⟨5, 5, 0⟩, ⟨6, 6, 0⟩, ⟨7, 7, 1⟩], "triplets"⟩

/-- Test interactions whose instance and target IDs coincide with
yNovTrain. -/
def ySeenTest : InteractionSet :=
  ⟨[⟨0, 0, 0⟩, ⟨1, 1, 1⟩, ⟨2, 2, 0⟩, ⟨3, 3, 1⟩], "triplets"⟩

/-- Test interactions with no records at all. -/
def yEmptyTest : InteractionSet := ⟨[], "triplets"⟩

/-- Triple list whose values are the binary 0/1 column of the type tests
(test_data_utils.py line 105). -/
def binTriples : List Triple := [⟨0, 0, 0⟩, ⟨1, 1, 1⟩, ⟨2, 2, 0⟩, ⟨3, 3, 1⟩]

/-- Triple list whose values are the real-valued column 0.1, 0.2, 0.3, 0.4
of the type tests (test_data_utils.py line 106). -/
def regTriples : List Triple :=
  [⟨0, 0, Rat.mk' 1 10⟩, ⟨1, 1, Rat.mk' 1 5⟩, ⟨2, 2, Rat.mk' 3 10⟩, ⟨3, 3, Rat.mk' 2 5⟩]

/-- Dataset whose three splits all carry the triplets format tag
(test_data_utils.py lines 57-59). -/
def dFmtGood : Dataset :=
  ⟨⟨some ⟨[], "triplets"⟩, none, none⟩,
    ⟨some ⟨[], "triplets"⟩, none, none⟩,
    ⟨some ⟨[], "triplets"⟩, none, none⟩⟩

/-- Dataset whose val split carries the numpy tag while train and test carry
triplets (test_data_utils.py lines 51-53). -/
def dFmtBad : Dataset :=
  ⟨⟨some ⟨[], "triplets"⟩, none, none⟩,
    ⟨some ⟨[], "numpy"⟩, none, none⟩,
    ⟨some ⟨[], "triplets"⟩, none, none⟩⟩

/-- Boolean coverage agrees with list membership. -/
theorem coveredBy_iff (a b : List Nat) : coveredBy a b = true ↔ ∀ i ∈ a, i ∈ b := by
  simp [coveredBy]

/-- Boolean disjointness agrees with negated membership. -/
theorem disjointIds_iff (a b : List Nat) : disjointIds a b = true ↔ ∀ i ∈ a, i ∉ b := by
  simp [disjointIds]

/-- A non-empty list covered by another is not disjoint from it. -/
theorem disjointIds_eq_false (a b : List Nat) (ha : a ≠ []) (h : coveredBy a b = true) :
    disjointIds a b = false := by
  cases hd : disjointIds a b with
  | false => rfl
  | true =>
    cases a with
    | nil => exact absurd rfl ha
    | cons i r =>
      have hi : i ∈ b := (coveredBy_iff _ _).mp h i (by simp)
      have hni : i ∉ b := (disjointIds_iff _ _).mp hd i (by simp)
      exact absurd hi hni

/-- C1: get_estimated_validation_setting maps each of the four pairs of
novelty booleans to exactly the setting of the table in spec section 3, and
as a Lean function it is pure (no side effects). -/
theorem get_estimated_validation_setting_matches_table :
    get_estimated_validation_setting false false = Setting.A
    ∧ get_estimated_validation_setting true false = Setting.B
    ∧ get_estimated_validation_setting false true = Setting.C
    ∧ get_estimated_validation_setting true true = Setting.D :=
  ⟨rfl, rfl, rfl, rfl⟩

/-- C5 (amended): check_novel_instances returns true when the test instance
IDs are disjoint from the train instance IDs, and returns false when the test
interaction data is non-empty and every test instance ID also appears in
train; check_novel_targets behaves identically over target IDs. -/
theorem check_novel_spec (train test : InteractionSet) :
    ((∀ i ∈ instanceIds test, i ∉ instanceIds train) →
      check_novel_instances train test = Except.ok true)
    ∧ (instanceIds test ≠ [] → (∀ i ∈ instanceIds test, i ∈ instanceIds train) →
      check_novel_instances train test = Except.ok false)
    ∧ ((∀ i ∈ targetIds test, i ∉ targetIds train) →
      check_novel_targets train test = Except.ok true)
    ∧ (targetIds test ≠ [] → (∀ i ∈ targetIds test, i ∈ targetIds train) →
      check_novel_targets train test = Except.ok false) := by
  refine ⟨?_, ?_, ?_, ?_⟩
  · intro h
    simp [check_novel_instances, (disjointIds_iff _ _).mpr h]
  · intro hne h
    have hc := (coveredBy_iff _ _).mpr h
    simp [check_novel_instances, disjointIds_eq_false _ _ hne hc, hc]
  · intro h
    simp [check_novel_targets, (disjointIds_iff _ _).mpr h]
  · intro hne h
    have hc := (coveredBy_iff _ _).mpr h
    simp [check_novel_targets, disjointIds_eq_false _ _ hne hc, hc]

/-- C5 counterexample: when the test interaction data is empty, every test
instance ID (vacuously) appears in train, yet check_novel_instances returns
true (the disjointness branch), not false as the claim demands. -/
theorem check_novel_empty_cx :
    (∀ i ∈ instanceIds yEmptyTest, i ∈ instanceIds yNovTrain)
    ∧ check_novel_instances yNovTrain yEmptyTest = Except.ok true
    ∧ Except.ok true ≠ (Except.ok false : Except DataError Bool) := by
  refine ⟨?_, rfl, ?_⟩
  · simp [instanceIds, yEmptyTest]
  · intro h
    exact Bool.noConfusion (Except.ok.inj h)

/-- Witness for C5: the novelty checks at the concrete ID sets of the tests
(train 0-3 against test 4-7, and train 0-3 against test 0-3). -/
theorem check_novel_spec_witness :
    check_novel_instances yNovTrain yNovTest = Except.ok true
    ∧ check_novel_instances yNovTrain ySeenTest = Except.ok false
    ∧ check_novel_targets yNovTrain yNovTest = Except.ok true
    ∧ check_novel_targets yNovTrain ySeenTest = Except.ok false :=
  ⟨(check_novel_spec yNovTrain yNovTest).1 (by decide),
    (check_novel_spec yNovTrain ySeenTest).2.1 (by decide) (by decide),
    (check_novel_spec yNovTrain yNovTest).2.2.1 (by decide),
    (check_novel_spec yNovTrain ySeenTest).2.2.2 (by decide) (by decide)⟩

/-- Boolean binary-value test agrees with its propositional reading. -/
theorem allBinary_iff (l : List Triple) :
    allBinary l = true ↔ ∀ t ∈ l, t.value = 0 ∨ t.value = 1 := by
  simp [allBinary]

/-- C6: check_variable_type returns binary when every value lies in 0/1 and
real-valued otherwise; check_target_variable_type returns the train split's
type and fails with InconsistentTypeError when the val or test split's
inferred type disagrees with train's. -/
theorem check_variable_type_spec (tr v te : List Triple) :
    ((∀ t ∈ tr, t.value = 0 ∨ t.value = 1) → check_variable_type tr = "binary")
    ∧ ((¬ ∀ t ∈ tr, t.value = 0 ∨ t.value = 1) → check_variable_type tr = "real-valued")
    ∧ (check_variable_type v = check_variable_type tr →
        check_variable_type te = check_variable_type tr →
        check_target_variable_type tr v te = Except.ok (check_variable_type tr))
    ∧ (¬(check_variable_type v = check_variable_type tr
          ∧ check_variable_type te = check_variable_type tr) →
        check_target_variable_type tr v te = Except.error DataError.InconsistentTypeError) := by
  refine ⟨?_, ?_, ?_, ?_⟩
  · intro h
    simp [check_variable_type, (allBinary_iff tr).mpr h]
  · intro h
    have hb : allBinary tr = false := by
      cases hb2 : allBinary tr
      · rfl
      · exact absurd ((allBinary_iff tr).mp hb2) h
    simp [check_variable_type, hb]
  · intro h1 h2
    simp [check_target_variable_type, h1, h2]
  · intro h
    have hb : ¬((check_variable_type v == check_variable_type tr
        && check_variable_type te == check_variable_type tr) = true) := by
      intro hb2
      simp only [Bool.and_eq_true, beq_iff_eq] at hb2
      exact h hb2
    unfold check_target_variable_type
    rw [if_neg hb]

/-- Witness for C6: the binary column 0,1,0,1 and the real-valued column
0.1, 0.2, 0.3, 0.4 of the tests, and the consistent/inconsistent dataset
combinations built from them. -/
theorem check_variable_type_spec_witness :
    check_variable_type binTriples = "binary"
    ∧ check_variable_type regTriples = "real-valued"
    ∧ check_target_variable_type binTriples binTriples binTriples
        = Except.ok (check_variable_type binTriples)
    ∧ check_target_variable_type binTriples regTriples binTriples
        = Except.error DataError.InconsistentTypeError :=
  ⟨(check_variable_type_spec binTriples binTriples binTriples).1 (by decide),
    (check_variable_type_spec regTriples binTriples binTriples).2.1 (by decide),
    (check_variable_type_spec binTriples binTriples binTriples).2.2.1 rfl rfl,
    (check_variable_type_spec binTriples regTriples binTriples).2.2.2 (by decide)⟩

/-- Equality test of a three-element format list agrees with pairwise
equality. -/
theorem allEqualStr_three (a b c : String) :
    allEqualStr [a, b, c] = true ↔ (a = b ∧ b = c) := by
  simp [allEqualStr]
  constructor
  · rintro ⟨hab, hac⟩
    exact ⟨hab.symm, hab.trans hac.symm⟩
  · rintro ⟨hab, hbc⟩
    exact ⟨hab.symm, (hab.trans hbc).symm⟩

/-- C7: when all three splits carry interaction data,
check_interaction_files_format succeeds exactly when the three
original_format tags are equal, and raises FormatError otherwise. -/
theorem check_interaction_files_format_spec (d : Dataset) (ta tv tt : InteractionSet)
    (h1 : d.train.y = some ta) (h2 : d.val.y = some tv) (h3 : d.test.y = some tt) :
    (check_interaction_files_format d = Except.ok () ↔
      (ta.original_format = tv.original_format ∧ tv.original_format = tt.original_format))
    ∧ (¬(ta.original_format = tv.original_format ∧ tv.original_format = tt.original_format) →
      check_interaction_files_format d = Except.error DataError.FormatError) := by
  have e : presentFormats d = [ta.original_format, tv.original_format, tt.original_format] := by
    simp [presentFormats, h1, h2, h3]
  by_cases hb : allEqualStr [ta.original_format, tv.original_format, tt.original_format] = true
  · have hp := (allEqualStr_three _ _ _).mp hb
    have hok : check_interaction_files_format d = Except.ok () := by
      simp [check_interaction_files_format, e, hb]
    refine ⟨?_, fun hn => absurd hp hn⟩
    rw [hok]
    exact iff_of_true rfl hp
  · have hb2 : allEqualStr [ta.original_format, tv.original_format, tt.original_format] = false := by
      simpa using hb
    have hp : ¬(ta.original_format = tv.original_format
        ∧ tv.original_format = tt.original_format) :=
      fun hpp => hb ((allEqualStr_three _ _ _).mpr hpp)
    have herr : check_interaction_files_format d = Except.error DataError.FormatError := by
      simp [check_interaction_files_format, e, hb2]
    refine ⟨?_, fun _ => herr⟩
    rw [herr]
    exact iff_of_false (by simp) hp

/-- Witness for C7: the all-triplets dataset passes and the dataset whose val
split is tagged numpy fails, as in test_data_utils.py lines 45-63. -/
theorem check_interaction_files_format_spec_witness :
    check_interaction_files_format dFmtGood = Except.ok ()
    ∧ check_interaction_files_format dFmtBad = Except.error DataError.FormatError :=
  ⟨(check_interaction_files_format_spec dFmtGood _ _ _ rfl rfl rfl).1.mpr (by decide),
    (check_interaction_files_format_spec dFmtBad _ _ _ rfl rfl rfl).2 (by decide)⟩

/-- Flip of a boolean if: testing against false swaps the branches. -/
theorem if_false_flip {α : Type} (c : Bool) (a b : α) :
    (if c = false then a else b) = (if c = true then b else a) := by
  cases c <;> simp

/-- Shared-identity branch with no feature table: the check passes. -/
theorem core_shared_k0 (t v u : SplitView)
    (hk : featCount t + featCount v + featCount u = 0) :
    cross_check_core t v u true = Except.ok () := by
  rcases t with ⟨ty, tx⟩
  rcases v with ⟨vy, vx⟩
  rcases u with ⟨uy, ux⟩
  cases tx <;> cases vx <;> cases ux <;>
    simp [featCount, cross_check_core] at hk ⊢

/-- Shared-identity branch with exactly one feature table: the check passes
exactly when the table covers the union of the referenced IDs. -/
theorem core_shared_k1 (t v u : SplitView)
    (hk : featCount t + featCount v + featCount u = 1) :
    cross_check_core t v u true
      = (if unionCovered t v u then Except.ok ()
          else Except.error DataError.IncompleteFeatureCoverageError) := by
  rcases t with ⟨ty, tx⟩
  rcases v with ⟨vy, vx⟩
  rcases u with ⟨uy, ux⟩
  cases tx <;> cases vx <;> cases ux <;>
    simp [featCount, cross_check_core, if_false_flip] at hk ⊢

/-- Shared-identity branch with two or three feature tables: the check fails
with RedundantFeatureSourceError. -/
theorem core_shared_k2 (t v u : SplitView)
    (hk : 2 ≤ featCount t + featCount v + featCount u) :
    cross_check_core t v u true = Except.error DataError.RedundantFeatureSourceError := by
  rcases t with ⟨ty, tx⟩
  rcases v with ⟨vy, vx⟩
  rcases u with ⟨uy, ux⟩
  cases tx <;> cases vx <;> cases ux <;>
    simp [featCount, cross_check_core] at hk ⊢

/-- Per-split branch with no feature table: the check passes. -/
theorem core_per_k0 (t v u : SplitView)
    (hk : featCount t + featCount v + featCount u = 0) :
    cross_check_core t v u false = Except.ok () := by
  rcases t with ⟨ty, tx⟩
  rcases v with ⟨vy, vx⟩
  rcases u with ⟨uy, ux⟩
  cases tx <;> cases vx <;> cases ux <;>
    simp [featCount, cross_check_core] at hk ⊢

/-- Per-split branch with exactly one feature table: single shared-source
semantics; the check passes exactly when the table covers the union of the
referenced IDs. -/
theorem core_per_k1 (t v u : SplitView)
    (hk : featCount t + featCount v + featCount u = 1) :
    cross_check_core t v u false
      = (if unionCovered t v u then Except.ok ()
          else Except.error DataError.IncompleteFeatureCoverageError) := by
  rcases t with ⟨ty, tx⟩
  rcases v with ⟨vy, vx⟩
  rcases u with ⟨uy, ux⟩
  cases tx <;> cases vx <;> cases ux <;>
    simp [featCount, cross_check_core] at hk ⊢

/-- Per-split branch with two feature tables while every split carries
interaction data: the check fails with MissingFeatureSourceError. -/
theorem core_per_k2_missing (t v u : SplitView)
    (ht : t.yIds.isSome = true) (hv : v.yIds.isSome = true) (hu : u.yIds.isSome = true)
    (hk : featCount t + featCount v + featCount u = 2) :
    cross_check_core t v u false = Except.error DataError.MissingFeatureSourceError := by
  rcases t with ⟨ty, tx⟩
  rcases v with ⟨vy, vx⟩
  rcases u with ⟨uy, ux⟩
  cases ty <;> cases vy <;> cases uy <;> cases tx <;> cases vx <;> cases ux <;>
    simp [featCount, xWithoutY, yWithoutX, cross_check_core] at ht hv hu hk ⊢

/-- Per-split branch with three feature tables while some split has no
interaction data: the check fails with RedundantFeatureSourceError. -/
theorem core_per_k3_noY (t v u : SplitView)
    (hk : featCount t + featCount v + featCount u = 3)
    (hy : t.yIds = none ∨ v.yIds = none ∨ u.yIds = none) :
    cross_check_core t v u false = Except.error DataError.RedundantFeatureSourceError := by
  rcases t with ⟨ty, tx⟩
  rcases v with ⟨vy, vx⟩
  rcases u with ⟨uy, ux⟩
  cases tx <;> cases vx <;> cases ux <;>
    simp [featCount] at hk <;>
    rcases hy with rfl | rfl | rfl <;>
      simp [cross_check_core, featCount, xWithoutY, yWithoutX]

/-- Per-split branch with three feature tables and interaction data on every
split: the check reduces to the per-split coverage test. -/
theorem core_per_k3_cov (t v u : SplitView)
    (ht : t.yIds.isSome = true) (hv : v.yIds.isSome = true) (hu : u.yIds.isSome = true)
    (hk : featCount t + featCount v + featCount u = 3) :
    cross_check_core t v u false
      = (if viewCovered t && viewCovered v && viewCovered u then Except.ok ()
          else Except.error DataError.IncompleteFeatureCoverageError) := by
  rcases t with ⟨ty, tx⟩
  rcases v with ⟨vy, vx⟩
  rcases u with ⟨uy, ux⟩
  cases ty <;> cases vy <;> cases uy <;> cases tx <;> cases vx <;> cases ux <;>
    simp [featCount, xWithoutY, yWithoutX, cross_check_core] at ht hv hu hk ⊢

/-- An if-expression over Except returns ok exactly when its condition
holds. -/
theorem ok_iff_of_if (c : Bool) (e : DataError) :
    ((if c = true then Except.ok () else (Except.error e : Except DataError Unit))
      = Except.ok ()) ↔ c = true := by
  cases c <;> simp

/-- The instance-side view of a split carries referenced IDs exactly when the
split carries interaction data. -/
theorem view_yIds_isSome_inst (s : SplitData) :
    (splitViewInstances s).yIds.isSome = s.y.isSome := by
  cases h : s.y <;> simp [splitViewInstances, h]

/-- The target-side view of a split carries referenced IDs exactly when the
split carries interaction data. -/
theorem view_yIds_isSome_tgt (s : SplitData) :
    (splitViewTargets s).yIds.isSome = s.y.isSome := by
  cases h : s.y <;> simp [splitViewTargets, h]

/-- Non-empty interaction data on all splits implies presence on all
splits. -/
theorem allYNonempty_isSome (d : Dataset) (hy : allYNonempty d = true) :
    d.train.y.isSome = true ∧ d.val.y.isSome = true ∧ d.test.y.isSome = true := by
  rcases d with ⟨⟨y1, xi1, xt1⟩, ⟨y2, xi2, xt2⟩, ⟨y3, xi3, xt3⟩⟩
  cases y1 <;> cases y2 <;> cases y3 <;>
    simp [allYNonempty, splitYNonempty] at hy ⊢

/-- C3: under the shared-identity settings (A and C for instance features,
A and B for target features) the cross-input consistency check accepts a
feature-table count of 0, accepts a count of 1 exactly when the single
table's ID set covers the union of IDs referenced by every split's
interaction table, and rejects a count of 2 or 3 with
RedundantFeatureSourceError. -/
theorem cross_check_shared_source_count (d : Dataset) (s : Setting) :
    ((s = Setting.A ∨ s = Setting.C) →
      (instanceFeatureCount d = 0 →
        cross_input_consistency_check_instances d s = Except.ok ())
      ∧ (instanceFeatureCount d = 1 →
        (cross_input_consistency_check_instances d s = Except.ok () ↔
          coveredBy (instanceUnionIds d) (instanceTableIds d) = true))
      ∧ (2 ≤ instanceFeatureCount d →
        cross_input_consistency_check_instances d s
          = Except.error DataError.RedundantFeatureSourceError))
    ∧ ((s = Setting.A ∨ s = Setting.B) →
      (targetFeatureCount d = 0 →
        cross_input_consistency_check_targets d s = Except.ok ())
      ∧ (targetFeatureCount d = 1 →
        (cross_input_consistency_check_targets d s = Except.ok () ↔
          coveredBy (targetUnionIds d) (targetTableIds d) = true))
      ∧ (2 ≤ targetFeatureCount d →
        cross_input_consistency_check_targets d s
          = Except.error DataError.RedundantFeatureSourceError)) := by
  constructor
  · rintro (rfl | rfl) <;>
    · refine ⟨fun hk => core_shared_k0 _ _ _ hk, fun hk => ?_, fun hk => core_shared_k2 _ _ _ hk⟩
      show cross_check_core _ _ _ true = Except.ok () ↔ _
      rw [core_shared_k1 _ _ _ hk]
      exact ok_iff_of_if _ _
  · rintro (rfl | rfl) <;>
    · refine ⟨fun hk => core_shared_k0 _ _ _ hk, fun hk => ?_, fun hk => core_shared_k2 _ _ _ hk⟩
      show cross_check_core _ _ _ true = Except.ok () ↔ _
      rw [core_shared_k1 _ _ _ hk]
      exact ok_iff_of_if _ _

/-- Witness for C3: under setting A the no-table dataset passes, the
one-table dataset of test_data_utils.py lines 277-293 passes with full union
coverage, and the two-table dataset of lines 259-275 fails with
RedundantFeatureSourceError. -/
theorem cross_check_shared_source_count_witness :
    cross_input_consistency_check_instances dA0 Setting.A = Except.ok ()
    ∧ cross_input_consistency_check_instances dA1 Setting.A = Except.ok ()
    ∧ cross_input_consistency_check_instances dA2 Setting.A
        = Except.error DataError.RedundantFeatureSourceError :=
  ⟨((cross_check_shared_source_count dA0 Setting.A).1 (Or.inl rfl)).1 (by decide),
    (((cross_check_shared_source_count dA1 Setting.A).1 (Or.inl rfl)).2.1 (by decide)).mpr
      (by decide),
    ((cross_check_shared_source_count dA2 Setting.A).1 (Or.inl rfl)).2.2 (by decide)⟩

/-- C2 (amended): under the per-split settings (B and D for instance
features, C and D for target features) with non-empty interaction data on
all three splits, a partial set of two feature tables raises
MissingFeatureSourceError, while a single feature table is treated as one
shared feature source and is accepted exactly when its ID set covers the
union of the IDs referenced by every split's interaction table. -/
theorem cross_check_partial_sources (d : Dataset) (s : Setting)
    (hy : allYNonempty d = true) :
    ((s = Setting.B ∨ s = Setting.D) →
      (instanceFeatureCount d = 2 →
        cross_input_consistency_check_instances d s
          = Except.error DataError.MissingFeatureSourceError)
      ∧ (instanceFeatureCount d = 1 →
        (cross_input_consistency_check_instances d s = Except.ok () ↔
          coveredBy (instanceUnionIds d) (instanceTableIds d) = true)))
    ∧ ((s = Setting.C ∨ s = Setting.D) →
      (targetFeatureCount d = 2 →
        cross_input_consistency_check_targets d s
          = Except.error DataError.MissingFeatureSourceError)
      ∧ (targetFeatureCount d = 1 →
        (cross_input_consistency_check_targets d s = Except.ok () ↔
          coveredBy (targetUnionIds d) (targetTableIds d) = true))) := by
  obtain ⟨hts, hvs, hus⟩ := allYNonempty_isSome d hy
  constructor
  · rintro (rfl | rfl) <;>
    · refine ⟨fun hk => ?_, fun hk => ?_⟩
      · exact core_per_k2_missing _ _ _
          (by rw [view_yIds_isSome_inst]; exact hts)
          (by rw [view_yIds_isSome_inst]; exact hvs)
          (by rw [view_yIds_isSome_inst]; exact hus) hk
      · show cross_check_core _ _ _ false = Except.ok () ↔ _
        rw [core_per_k1 _ _ _ hk]
        exact ok_iff_of_if _ _
  · rintro (rfl | rfl) <;>
    · refine ⟨fun hk => ?_, fun hk => ?_⟩
      · exact core_per_k2_missing _ _ _
          (by rw [view_yIds_isSome_tgt]; exact hts)
          (by rw [view_yIds_isSome_tgt]; exact hvs)
          (by rw [view_yIds_isSome_tgt]; exact hus) hk
      · show cross_check_core _ _ _ false = Except.ok () ↔ _
        rw [core_per_k1 _ _ _ hk]
        exact ok_iff_of_if _ _

/-- C2 counterexample: the setting-B scenario of test_data_utils.py lines
351-367 supplies a single instance-feature table only for train, covering all
splits, with non-empty interaction data everywhere; the check accepts it
instead of raising MissingFeatureSourceError. -/
theorem cross_check_partial_sources_cx :
    allYNonempty dSingleB = true
    ∧ instanceFeatureCount dSingleB = 1
    ∧ cross_input_consistency_check_instances dSingleB Setting.B = Except.ok () :=
  ⟨rfl, rfl, rfl⟩

/-- Witness for C2 (amended): the two-table setting-B scenario of
test_data_utils.py lines 333-349 raises MissingFeatureSourceError, the
one-table scenario of lines 351-367 passes by union coverage, and the target
mirror of lines 530-546 raises MissingFeatureSourceError under setting C. -/
theorem cross_check_partial_sources_witness :
    cross_input_consistency_check_instances dK2B Setting.B
      = Except.error DataError.MissingFeatureSourceError
    ∧ cross_input_consistency_check_instances dSingleB Setting.B = Except.ok ()
    ∧ cross_input_consistency_check_targets dK2C Setting.C
      = Except.error DataError.MissingFeatureSourceError :=
  ⟨((cross_check_partial_sources dK2B Setting.B (by decide)).1 (Or.inl rfl)).1 (by decide),
    (((cross_check_partial_sources dSingleB Setting.B (by decide)).1 (Or.inl rfl)).2
      (by decide)).mpr (by decide),
    ((cross_check_partial_sources dK2C Setting.C (by decide)).2 (Or.inl rfl)).1 (by decide)⟩

/-- C4 (amended): once the feature-source count is structurally valid, a
coverage violation raises IncompleteFeatureCoverageError: with a single
supplied table (any setting) whose ID set misses a referenced ID, and with
three tables under a per-split setting (all splits carrying data) where some
split's table misses an ID referenced by that split; when the count itself is
invalid the count error takes precedence. -/
theorem coverage_failure_incomplete (d : Dataset) (s : Setting) :
    (instanceFeatureCount d = 1 →
      coveredBy (instanceUnionIds d) (instanceTableIds d) = false →
      cross_input_consistency_check_instances d s
        = Except.error DataError.IncompleteFeatureCoverageError)
    ∧ ((s = Setting.B ∨ s = Setting.D) → allYNonempty d = true →
      instanceFeatureCount d = 3 →
      (viewCovered (splitViewInstances d.train) && viewCovered (splitViewInstances d.val)
        && viewCovered (splitViewInstances d.test)) = false →
      cross_input_consistency_check_instances d s
        = Except.error DataError.IncompleteFeatureCoverageError)
    ∧ (targetFeatureCount d = 1 →
      coveredBy (targetUnionIds d) (targetTableIds d) = false →
      cross_input_consistency_check_targets d s
        = Except.error DataError.IncompleteFeatureCoverageError)
    ∧ ((s = Setting.C ∨ s = Setting.D) → allYNonempty d = true →
      targetFeatureCount d = 3 →
      (viewCovered (splitViewTargets d.train) && viewCovered (splitViewTargets d.val)
        && viewCovered (splitViewTargets d.test)) = false →
      cross_input_consistency_check_targets d s
        = Except.error DataError.IncompleteFeatureCoverageError) := by
  refine ⟨fun hk hcov => ?_, fun hs hy hk hcov => ?_, fun hk hcov => ?_,
    fun hs hy hk hcov => ?_⟩
  · simp only [instanceUnionIds, instanceTableIds] at hcov
    cases s <;>
    · show cross_check_core _ _ _ _ = _
      simp only [instanceSharedSetting]
      first
        | rw [core_shared_k1 _ _ _ hk]
        | rw [core_per_k1 _ _ _ hk]
      simp only [unionCovered]
      simp only [hcov]
      simp
  · obtain ⟨hts, hvs, hus⟩ := allYNonempty_isSome d hy
    rcases hs with rfl | rfl <;>
    · show cross_check_core _ _ _ false = _
      rw [core_per_k3_cov _ _ _
        (by rw [view_yIds_isSome_inst]; exact hts)
        (by rw [view_yIds_isSome_inst]; exact hvs)
        (by rw [view_yIds_isSome_inst]; exact hus) hk]
      simp only [hcov]
      simp
  · simp only [targetUnionIds, targetTableIds] at hcov
    cases s <;>
    · show cross_check_core _ _ _ _ = _
      simp only [targetSharedSetting]
      first
        | rw [core_shared_k1 _ _ _ hk]
        | rw [core_per_k1 _ _ _ hk]
      simp only [unionCovered]
      simp only [hcov]
      simp
  · obtain ⟨hts, hvs, hus⟩ := allYNonempty_isSome d hy
    rcases hs with rfl | rfl <;>
    · show cross_check_core _ _ _ false = _
      rw [core_per_k3_cov _ _ _
        (by rw [view_yIds_isSome_tgt]; exact hts)
        (by rw [view_yIds_isSome_tgt]; exact hvs)
        (by rw [view_yIds_isSome_tgt]; exact hus) hk]
      simp only [hcov]
      simp

/-- C4 counterexample: in dataset dCovCx under setting B the val split
carries a feature table that misses referenced instance ID 2, yet the check
raises MissingFeatureSourceError (the structural count rule for two tables
takes precedence), not IncompleteFeatureCoverageError. -/
theorem coverage_failure_cx :
    (splitViewInstances dCovCx.val).xIds.isSome = true
    ∧ viewCovered (splitViewInstances dCovCx.val) = false
    ∧ cross_input_consistency_check_instances dCovCx Setting.B
        = Except.error DataError.MissingFeatureSourceError
    ∧ DataError.MissingFeatureSourceError ≠ DataError.IncompleteFeatureCoverageError :=
  ⟨rfl, rfl, rfl, by decide⟩

/-- Witness for C4 (amended): the setting-B scenario of test_data_utils.py
lines 223-239 (three tables, val table covering only instance 4 while val
references 4 and 5) raises IncompleteFeatureCoverageError. -/
theorem coverage_failure_incomplete_witness :
    cross_input_consistency_check_instances dK3BadCov Setting.B
      = Except.error DataError.IncompleteFeatureCoverageError :=
  (coverage_failure_incomplete dK3BadCov Setting.B).2.1 (Or.inl rfl) (by decide)
    (by decide) (by decide)

/-- C10: under a per-split setting (instance tables under setting B, target
tables under setting C), when all three splits carry their own feature table
but some split's interaction data is absent, the cross-input consistency
check raises an error: a feature table supplied for a split without
interaction data is rejected rather than ignored. -/
theorem feature_without_interaction_rejected (d : Dataset) :
    (instanceFeatureCount d = 3 →
      (d.train.y = none ∨ d.val.y = none ∨ d.test.y = none) →
      ∃ e, cross_input_consistency_check_instances d Setting.B = Except.error e)
    ∧ (targetFeatureCount d = 3 →
      (d.train.y = none ∨ d.val.y = none ∨ d.test.y = none) →
      ∃ e, cross_input_consistency_check_targets d Setting.C = Except.error e) := by
  constructor
  · intro hk hy
    refine ⟨DataError.RedundantFeatureSourceError, ?_⟩
    show cross_check_core _ _ _ false = _
    apply core_per_k3_noY _ _ _ hk
    rcases hy with h | h | h
    · exact Or.inl (by simp [splitViewInstances, h])
    · exact Or.inr (Or.inl (by simp [splitViewInstances, h]))
    · exact Or.inr (Or.inr (by simp [splitViewInstances, h]))
  · intro hk hy
    refine ⟨DataError.RedundantFeatureSourceError, ?_⟩
    show cross_check_core _ _ _ false = _
    apply core_per_k3_noY _ _ _ hk
    rcases hy with h | h | h
    · exact Or.inl (by simp [splitViewTargets, h])
    · exact Or.inr (Or.inl (by simp [splitViewTargets, h]))
    · exact Or.inr (Or.inr (by simp [splitViewTargets, h]))

/-- Witness for C10: the setting-B scenario of test_data_utils.py lines
297-313 (val interaction data absent, three instance-feature tables) is
rejected. -/
theorem feature_without_interaction_rejected_witness :
    ∃ e, cross_input_consistency_check_instances dYNoneB Setting.B = Except.error e :=
  (feature_without_interaction_rejected dYNoneB).1 (by decide) (Or.inr (Or.inl rfl))

/-- C8: process_interaction_data on a dense 2-D array returns one triple per
cell with the row index as instance_id, the column index as target_id and the
cell as value, tagged numpy with int ID types; a triple table passes through
unchanged, tagged triplets. -/
theorem process_interaction_data_spec (rows : List (List Rat)) (table : List Triple) :
    (process_interaction_data (RawInteractions.dense rows)).original_format = "numpy"
    ∧ (process_interaction_data (RawInteractions.dense rows)).instance_id_type = "int"
    ∧ (process_interaction_data (RawInteractions.dense rows)).target_id_type = "int"
    ∧ (∀ (i j : Nat) (w : Rat),
        Triple.mk i j w ∈ (process_interaction_data (RawInteractions.dense rows)).data ↔
          ∃ row, rows[i]? = some row ∧ row[j]? = some w)
    ∧ (process_interaction_data (RawInteractions.dense rows)).data.length
        = (rows.map List.length).sum
    ∧ (process_interaction_data (RawInteractions.triplets table)).data = table
    ∧ (process_interaction_data (RawInteractions.triplets table)).original_format
        = "triplets" := by
  refine ⟨rfl, rfl, rfl, ?_, ?_, rfl, rfl⟩
  · intro i j w
    show Triple.mk i j w
        ∈ (rows.enum.map (fun p => p.2.enum.map (fun q => Triple.mk p.1 q.1 q.2))).flatten ↔ _
    rw [List.mem_flatten]
    constructor
    · rintro ⟨m, hm, hin⟩
      rw [List.mem_map] at hm
      obtain ⟨p, hp, rfl⟩ := hm
      rw [List.mem_map] at hin
      obtain ⟨q, hq, hEq⟩ := hin
      injection hEq with h1 h2 h3
      subst h1
      subst h2
      subst h3
      exact ⟨p.2, List.mem_enum_iff_getElem?.mp hp, List.mem_enum_iff_getElem?.mp hq⟩
    · rintro ⟨row, hrow, hcell⟩
      refine ⟨row.enum.map (fun q => Triple.mk i q.1 q.2), ?_, ?_⟩
      · rw [List.mem_map]
        exact ⟨(i, row), List.mem_enum_iff_getElem?.mpr hrow, rfl⟩
      · rw [List.mem_map]
        exact ⟨(j, w), List.mem_enum_iff_getElem?.mpr hcell, rfl⟩
  · show ((rows.enum.map (fun p => p.2.enum.map (fun q => Triple.mk p.1 q.1 q.2))).flatten).length
        = _
    rw [List.length_flatten _, List.map_map]
    congr 1
    conv_rhs => rw [← List.enum_map_snd rows, List.map_map]
    apply List.map_congr_left
    intro p _
    simp

end DeepMTP
